import Mathlib

/-!
Verification development for the robot-facing gateway of the rce cloud
robotics engine.  The definitions below are shallow embeddings of

  * `src/framework/Administration/src/SatelliteUtil/ClientServer.py`
    (`WebSocketCloudEngineProtocol`): inbound/outbound WebSocket framing,
    binary reassembly, periodic cleanup;
  * `src/framework/rce/robot.py` (`Robot`, `RobotClient`): the per-robot
    session, the gateway registry, authentication;
  * `src/framework/rce/master/robot.py` (`Distributor`): load-aware
    placement.

Python 2 byte strings are modelled as Lean `String`s, JSON-compatible
values as the inductive `JVal`, Python dicts as association lists in
insertion order (json-decoded dicts have unique keys), and raised
exceptions as explicit error values.  Mutation of a nested dict through
an aliased reference (the parked-message triples of the reassembly
buffer) is modelled by recording the access path of the parent object
and updating the tree at that path.
-/

namespace RCE

/-- JSON-compatible values as they appear in the protocol handler.
`blob` models a Python 2 `StringIO` buffer holding a byte string (the
only values `_checkIsStringIO` accepts); `null` models Python `None`
(both JSON `null` and the result of `StringIO().write(...)`, which
returns `None` and discards the written buffer). -/
inductive JVal where
  | str (s : String)
  | num (n : Int)
  | bool (b : Bool)
  | null
  | obj (kvs : List (String × JVal))
  | arr (xs : List JVal)
  | blob (bytes : String)

mutual

/-- Structural equality test on JSON values. -/
def JVal.beq : JVal → JVal → Bool
  | .str a, .str b => a == b
  | .num a, .num b => a == b
  | .bool a, .bool b => a == b
  | .null, .null => true
  | .obj a, .obj b => JVal.beqObj a b
  | .arr a, .arr b => JVal.beqArr a b
  | .blob a, .blob b => a == b
  | _, _ => false

/-- `JVal.beq` on object entry lists. -/
def JVal.beqObj : List (String × JVal) → List (String × JVal) → Bool
  | [], [] => true
  | (k, v) :: r, (k', v') :: r' => k == k' && JVal.beq v v' && JVal.beqObj r r'
  | _, _ => false

/-- `JVal.beq` on array element lists. -/
def JVal.beqArr : List JVal → List JVal → Bool
  | [], [] => true
  | x :: r, y :: r' => JVal.beq x y && JVal.beqArr r r'
  | _, _ => false

end

/-- Python errors raised inside the protocol handler. -/
inductive PyErr where
  /-- `AttributeError`: attribute access on `None` (`self._robot` before any
  `CreateContainer`) or `.iteritems()` on a non-dict. -/
  | attributeError
  /-- `KeyError` from a dict subscript. -/
  | keyError (k : String)
  /-- `TypeError` (subscript or iteration over an unsuitable value). -/
  | typeError
  /-- `Exceptions.InvalidRequest('This type is not supported')`. -/
  | invalidRequest
deriving DecidableEq

/-- Association-list lookup, first occurrence (Python dict subscript;
decoded dicts have unique keys). -/
def jfind : List (String × JVal) → String → Option JVal
  | [], _ => Option.none
  | (k, v) :: rest, key => if k = key then some v else jfind rest key

/-- `d[key]` on a JSON value: `KeyError` when the key is missing,
`TypeError` when the value is not a dict. -/
def jget : JVal → String → Except PyErr JVal
  | .obj kvs, key =>
    match jfind kvs key with
    | some v => .ok v
    | Option.none => .error (.keyError key)
  | _, _ => .error .typeError

/-- `key in d` (only meaningful on dicts; the handler only uses it on the
decoded `data` object). -/
def jHasKey : JVal → String → Bool
  | .obj kvs, key => kvs.any (fun p => p.1 = key)
  | _, _ => false

/-- `del d[key]`: remove the (unique) entry with the given key. -/
def eraseKey : List (String × JVal) → String → List (String × JVal)
  | [], _ => []
  | (k, v) :: rest, key => if k = key then rest else (k, v) :: eraseKey rest key

/-- `d[key] = v` on an association list: replace in place if present,
append otherwise. -/
def setKey : List (String × JVal) → String → JVal → List (String × JVal)
  | [], key, v => [(key, v)]
  | (k, w) :: rest, key, v =>
    if k = key then (k, v) :: rest else (k, w) :: setKey rest key v

/-- `for x in v`: Python 2 iteration. Lists yield their elements, dicts
their keys, strings their characters; other values raise `TypeError`. -/
def jIter : JVal → Except PyErr (List JVal)
  | .arr xs => .ok xs
  | .obj kvs => .ok (kvs.map (fun p => JVal.str p.1))
  | .str s => .ok (s.toList.map (fun c => JVal.str c.toString))
  | _ => .error .typeError

/-- Python truthiness of a JSON value. -/
def jTruthy : JVal → Bool
  | .str s => s ≠ ""
  | .num n => n ≠ 0
  | .bool b => b
  | .null => false
  | .obj kvs => !kvs.isEmpty
  | .arr xs => !xs.isEmpty
  | .blob _ => true

/-- `k[-1] == '*'`: the last character of the key is the URI marker.
(Python would raise `IndexError` on an empty key; an empty key simply
tests false here — no claim involves one.) -/
def endsStar (k : String) : Bool := k.data.getLast? = some '*'

/-- Access path of a nested dict inside a JSON tree: the sequence of keys
leading to it, traversing dicts only.  Models the aliased
`containerObject` reference held by a reassembly triple. -/
abbrev JPath := List String

mutual

/-- Apply a rewrite to the entry list of the dict reached by following
`path` from the root (identity when the path does not lead to a dict). -/
def updObjAt : JVal → JPath → (List (String × JVal) → List (String × JVal)) → JVal
  | .obj kvs, [], f => .obj (f kvs)
  | .obj kvs, key :: ps, f => .obj (updObjEntries kvs key ps f)
  | v, _, _ => v

/-- `updObjAt` stepping through one dict level: rewrite the value under
`key` by descending along `ps`, leave every other entry alone. -/
def updObjEntries : List (String × JVal) → String → JPath →
    (List (String × JVal) → List (String × JVal)) → List (String × JVal)
  | [], _, _, _ => []
  | (k, v) :: rest, key, ps, f =>
    (if k = key then (k, updObjAt v ps f) else (k, v)) :: updObjEntries rest key ps f

end

mutual

/-- One value step of `_recursiveURISearch` (ClientServer.py 45-56): a
dict value is recursed into (extending the parent path by its key), any
other value whose key ends in `*` is collected as a
`(value, parentPath, key)` triple. -/
def uriSearchVal : JVal → JPath → String → List (JVal × JPath × String)
  | .obj kvs, p, k => uriSearchList kvs (p ++ [k])
  | w, p, k => if endsStar k then [(w, p, k)] else []

/-- `WebSocketCloudEngineProtocol._recursiveURISearch` phrased on the
entry list of a dict, walked in order. -/
def uriSearchList : List (String × JVal) → JPath → List (JVal × JPath × String)
  | [], _ => []
  | (k, v) :: rest, p => uriSearchVal v p k ++ uriSearchList rest p

end

mutual

/-- `starLeafList` on one entry: a dict value defers to its entries, any
other value reports whether its key ends in `*`. -/
def starLeafVal : JVal → String → Bool
  | .obj kvs, _ => starLeafList kvs
  | _, k => endsStar k

/-- `true` when some key with a non-dict value reachable through nested
dicts (the positions `_recursiveURISearch` inspects) ends in `*`. -/
def starLeafList : List (String × JVal) → Bool
  | [] => false
  | (k, v) :: rest => starLeafVal v k || starLeafList rest

end

mutual

/-- `true` when any key anywhere in the JSON tree, including inside
objects nested in arrays, ends in `*` (the predicate of the spec's
no-placeholder invariant). -/
def hasPlaceholderKey : JVal → Bool
  | .obj kvs => hasPlaceholderKeyList kvs
  | .arr xs => hasPlaceholderKeyArr xs
  | _ => false

/-- `hasPlaceholderKey` on the entries of an object. -/
def hasPlaceholderKeyList : List (String × JVal) → Bool
  | [] => false
  | (k, v) :: rest => endsStar k || hasPlaceholderKey v || hasPlaceholderKeyList rest

/-- `hasPlaceholderKey` on the elements of an array. -/
def hasPlaceholderKeyArr : List JVal → Bool
  | [] => false
  | x :: rest => hasPlaceholderKey x || hasPlaceholderKeyArr rest

end

/-- Modelled from the spec: the `ClientMsgTypes` module is not under
`src/`; §4.1 of the spec names the wire tags. The six constants are
pairwise distinct strings; `_strMsgHandle` branches on the first five
and has no branch for `CONNECT_INTERFACES`. -/
def CREATE_CONTAINER : String := "CreateContainer"

/-- Wire tag for container destruction (see `CREATE_CONTAINER`). -/
def DESTROY_CONTAINER : String := "DestroyContainer"

/-- Wire tag for component configuration (see `CREATE_CONTAINER`). -/
def CHANGE_COMPONENT : String := "ConfigureComponent"

/-- Wire tag for interface (de)activation (see `CREATE_CONTAINER`). -/
def INTERFACE_STATE : String := "ConfigureInterfaceState"

/-- Wire tag for data messages (see `CREATE_CONTAINER`). -/
def MESSAGE : String := "DataMessage"

/-- Wire tag for interface wiring (see `CREATE_CONTAINER`); the spec's
§4.1 table lists it, `_strMsgHandle` does not handle it. -/
def CONNECT_INTERFACES : String := "ConnectInterfaces"

/-- A decoded text frame `{type, orig, dest, data}`.  The handler looks
the four fields up at their use sites; they are modelled as extracted
up front (no claim exercises a missing top-level field). -/
structure StrMsg where
  type : String
  orig : String
  dest : String
  data : JVal

/-- A still-missing binary slot of a parked message:
`(uri, containerObject, key)` with the parent dict given by its access
path. -/
abbrev Triple := JVal × JPath × String

/-- One parked entry of `self._incompleteMsgs`:
`(incompleteMsg, incompleteURIList, arrivalTime)`. -/
abbrev Entry := StrMsg × List Triple × Nat

/-- Mutable state of one `WebSocketCloudEngineProtocol` instance:
`self._robot` (None until the first `CreateContainer`) and
`self._incompleteMsgs`. -/
structure CState where
  robot : Option Unit
  incompleteMsgs : List Entry

/-- Fresh protocol state (`__init__`, ClientServer.py 34-43). -/
def CState.init : CState := ⟨Option.none, []⟩

/-- Calls the handler makes on the Administration-side `Robot` object.
Modelled from the spec: that `Robot` class is not under `src/`; §4.1's
table says each call becomes one RPC dispatched via the master, and
`sendROSMsgToContainer` delivers a data message to the destination
interface. -/
inductive Effect where
  | createContainer (tag : JVal)
  | destroyContainer (tag : JVal)
  | addNode (dest : String) (nodeTag pkg exe ns : JVal)
  | removeNode (dest : String) (nodeTag : JVal)
  | addInterface (dest : String) (tag name itype clsName : JVal)
  | removeInterface (dest : String) (tag : JVal)
  | addParameter (dest : String) (name value ptype : JVal)
  | removeParameter (dest : String) (name : JVal)
  | activateInterface (dest : String) (tag : String)
  | deactivateInterface (dest : String) (tag : String)
  | sendROS (dest : String) (data : JVal)

/-- Result of handling one text frame: the new state, the robot calls
made before any exception, and the exception if one was raised. -/
structure HRes where
  state : CState
  effects : List Effect
  err : Option PyErr

/-- A `for x in items: self._robot.method(...)` loop.  Python evaluates
the callable before the arguments, so with `self._robot = None` the
first iteration raises `AttributeError` before any lookup; otherwise
each element is turned into one robot call, stopping at the first
lookup error. -/
def processItems (robot : Option Unit) (items : List JVal)
    (mk : JVal → Except PyErr Effect) : List Effect × Option PyErr :=
  match items with
  | [] => ([], Option.none)
  | x :: rest =>
    match robot with
    | Option.none => ([], some .attributeError)
    | some _ =>
      match mk x with
      | .error e => ([], some e)
      | .ok eff =>
        let (effs, err) := processItems robot rest mk
        (eff :: effs, err)

/-- One `if field in data: for x in data[field]: ...` block of the
`ConfigureComponent` branch (ClientServer.py 72-98). -/
def processSubset (robot : Option Unit) (data : JVal) (field : String)
    (mk : JVal → Except PyErr Effect) : List Effect × Option PyErr :=
  if jHasKey data field then
    match jget data field with
    | .error e => ([], some e)
    | .ok v =>
      match jIter v with
      | .error e => ([], some e)
      | .ok items => processItems robot items mk
  else ([], Option.none)

/-- Sequencing of two effect-producing blocks: the second runs only when
the first raised nothing; effects accumulate in order. -/
def seqEff (a : List Effect × Option PyErr)
    (k : Unit → List Effect × Option PyErr) : List Effect × Option PyErr :=
  match a with
  | (effs, some e) => (effs, some e)
  | (effs, Option.none) =>
    let (effs2, err) := k ()
    (effs ++ effs2, err)

/-- The `ConfigureComponent` branch (ClientServer.py 71-98): the six
subset lists in declaration order, one robot call per element. -/
def changeComponentEffects (robot : Option Unit) (dest : String) (data : JVal) :
    List Effect × Option PyErr :=
  seqEff (processSubset robot data "addNodes" (fun node => do
      pure (.addNode dest (← jget node "nodeTag") (← jget node "pkg")
        (← jget node "exe") (← jget node "namespace"))))
  (fun _ => seqEff (processSubset robot data "removeNodes"
      (fun t => .ok (.removeNode dest t)))
  (fun _ => seqEff (processSubset robot data "addInterfaces" (fun c => do
      pure (.addInterface dest (← jget c "name") (← jget c "name")
        (← jget c "interfaceType") (← jget c "className"))))
  (fun _ => seqEff (processSubset robot data "removeInterfaces"
      (fun t => .ok (.removeInterface dest t)))
  (fun _ => seqEff (processSubset robot data "setParam" (fun p => do
      pure (.addParameter dest (← jget p "paramName") (← jget p "paramValue")
        (← jget p "paramType"))))
  (fun _ => processSubset robot data "deleteParam"
      (fun n => .ok (.removeParameter dest n)))))))

/-- The `for interfaceTag, activate in data.iteritems()` loop of the
`ConfigureInterfaceState` branch (ClientServer.py 101-105). -/
def interfaceStateLoop (robot : Option Unit) (dest : String) :
    List (String × JVal) → List Effect × Option PyErr
  | [] => ([], Option.none)
  | (tag, activate) :: rest =>
    match robot with
    | Option.none => ([], some .attributeError)
    | some _ =>
      let eff := if jTruthy activate then Effect.activateInterface dest tag
                 else Effect.deactivateInterface dest tag
      let (effs, err) := interfaceStateLoop robot dest rest
      (eff :: effs, err)

/-- The `ConfigureInterfaceState` branch; `.iteritems()` on a non-dict
`data` raises `AttributeError`. -/
def interfaceStateEffects (robot : Option Unit) (dest : String) (data : JVal) :
    List Effect × Option PyErr :=
  match data with
  | .obj kvs => interfaceStateLoop robot dest kvs
  | _ => ([], some .attributeError)

/-- `WebSocketCloudEngineProtocol._strMsgHandle` (ClientServer.py
58-114).  `now` is `datetime.now()` at parking time.  Only the
`CreateContainer` branch instantiates `self._robot`; every other branch
that reaches a `self._robot.` attribute access with the reference still
`None` raises `AttributeError`; an unrecognized type raises
`InvalidRequest`. -/
def strMsgHandle (s : CState) (now : Nat) (m : StrMsg) : HRes :=
  if m.type = CREATE_CONTAINER then
    let s' : CState := { s with robot := some () }
    match jget m.data "containerTag" with
    | .error e => { state := s', effects := [], err := some e }
    | .ok tag => { state := s', effects := [.createContainer tag], err := Option.none }
  else if m.type = DESTROY_CONTAINER then
    match s.robot with
    | Option.none => { state := s, effects := [], err := some .attributeError }
    | some _ =>
      match jget m.data "containerTag" with
      | .error e => { state := s, effects := [], err := some e }
      | .ok tag => { state := s, effects := [.destroyContainer tag], err := Option.none }
  else if m.type = CHANGE_COMPONENT then
    let pr := changeComponentEffects s.robot m.dest m.data
    { state := s, effects := pr.1, err := pr.2 }
  else if m.type = INTERFACE_STATE then
    let pr := interfaceStateEffects s.robot m.dest m.data
    { state := s, effects := pr.1, err := pr.2 }
  else if m.type = MESSAGE then
    match jget m.data "msg" with
    | .error e => { state := s, effects := [], err := some e }
    | .ok (.obj kvs) =>
      let uriList := uriSearchList kvs ["msg"]
      if uriList.isEmpty then
        match s.robot with
        | Option.none => { state := s, effects := [], err := some .attributeError }
        | some _ => { state := s, effects := [.sendROS m.dest m.data], err := Option.none }
      else
        { state := { s with incompleteMsgs := s.incompleteMsgs ++ [(m, uriList, now)] },
          effects := [], err := Option.none }
    | .ok _ => { state := s, effects := [], err := some .attributeError }
  else
    { state := s, effects := [], err := some .invalidRequest }

/-- Install a received binary into a parked message:
`del msgDict[key]; msgDict[key[:-1]] = binaryData` at the parent path.
`binaryData` is the result of `StringIO().write(msg[33:])` — Python 2
`StringIO.write` returns `None`, so the payload slice (itself skipping
byte 32) is discarded and `None` is installed. -/
def installBinary (m : StrMsg) (path : JPath) (key : String) : StrMsg :=
  { m with data :=
      updObjAt m.data path (fun kvs => setKey (eraseKey kvs key) (String.mk key.data.dropLast) JVal.null) }

/-- Find the first triple whose stored URI value equals the received
URI string, returning it together with the list with that triple
removed (`incompleteURIList.remove`). -/
def splitTriple (uri : String) : List Triple → Option (Triple × List Triple)
  | [] => Option.none
  | t :: rest =>
    if JVal.beq t.1 (JVal.str uri) then some (t, rest)
    else
      match splitTriple uri rest with
      | some (t', rest') => some (t', t :: rest')
      | Option.none => Option.none

/-- The entry loop of `_binaryMsgHandle` (ClientServer.py 122-138): the
first parked entry holding a matching triple is updated; when its
missing list becomes empty the completed message is dispatched and the
entry evicted — unless `self._robot` is still `None`, in which case the
dispatch raises and the already-mutated entry stays parked.  A URI
matching no entry is silently dropped. -/
def binHandleEntries (robot : Option Unit) (uri : String) :
    List Entry → List Entry × List Effect × Option PyErr
  | [] => ([], [], Option.none)
  | (m, triples, t) :: rest =>
    match splitTriple uri triples with
    | Option.none =>
      let (rest', effs, err) := binHandleEntries robot uri rest
      ((m, triples, t) :: rest', effs, err)
    | some (tr, triples') =>
      let m' := installBinary m tr.2.1 tr.2.2
      if triples'.isEmpty then
        match robot with
        | Option.none => ((m', triples', t) :: rest, [], some .attributeError)
        | some _ => (rest, [Effect.sendROS m'.dest m'.data], Option.none)
      else ((m', triples', t) :: rest, [], Option.none)

/-- `WebSocketCloudEngineProtocol._binaryMsgHandle` (ClientServer.py
116-138): `uri = msg[:32]`, then the entry scan above. -/
def binaryMsgHandle (s : CState) (frame : String) :
    CState × List Effect × Option PyErr :=
  let uri := String.mk (frame.data.take 32)
  let r := binHandleEntries s.robot uri s.incompleteMsgs
  ({ s with incompleteMsgs := r.1 }, r.2.1, r.2.2)

/-- One inbound WebSocket frame, already decoded (malformed JSON, which
would raise in `json.loads` and be reported like any other error, is
not modelled). -/
inductive Frame where
  | text (m : StrMsg)
  | binary (b : String)

/-- Observable output of `onMessage`: a robot call, or the traceback
text frame sent back on the same WebSocket by the `except` clause. -/
inductive Out where
  | eff (e : Effect)
  | errorFrame

/-- `WebSocketCloudEngineProtocol.onMessage` (ClientServer.py 140-158):
dispatch by the binary flag; any raised exception is caught and
reported as a single text frame, after whatever robot calls already
happened. -/
def onMessage (s : CState) (now : Nat) (f : Frame) : CState × List Out :=
  match f with
  | .binary b =>
    let r := binaryMsgHandle s b
    (r.1, r.2.1.map Out.eff ++
      (match r.2.2 with | some _ => [Out.errorFrame] | Option.none => []))
  | .text m =>
    let r := strMsgHandle s now m
    (r.state, r.effects.map Out.eff ++
      (match r.err with | some _ => [Out.errorFrame] | Option.none => []))

/-- A sequence of inbound frames on one WebSocket, outputs concatenated
in order. -/
def runFrames (s : CState) (now : Nat) : List Frame → CState × List Out
  | [] => (s, [])
  | f :: rest =>
    let r := onMessage s now f
    let r2 := runFrames r.1 now rest
    (r2.1, r.2 ++ r2.2)

/-- The index scan of `_cleanUp`: the first index whose entry is newer
than the limit, or nothing when the loop falls through. -/
def cleanUpScan (limit : Nat) : List Entry → Nat → Option Nat
  | [], _ => Option.none
  | e :: rest, i => if limit < e.2.2 then some i else cleanUpScan limit rest (i + 1)

/-- `WebSocketCloudEngineProtocol._cleanUp` (ClientServer.py 199-210),
with `limit = now - MSG_QUQUE_TIMEOUT`: the loop scans for the first
entry strictly newer than the limit; at a positive index the list is
sliced from there and the loop breaks; at index 0 it breaks without
slicing; and when every entry is at most `limit` old the loop falls
through without dropping anything. -/
def cleanUp (limit : Nat) (msgs : List Entry) : List Entry :=
  match cleanUpScan limit msgs 0 with
  | some i => if i ≠ 0 then msgs.drop i else msgs
  | Option.none => msgs

/-- The second loop of `_recursiveBinarySearch` (ClientServer.py
174-178): for each collected blob key, draw a fresh URI, record
`(tmpURI, v)` — `v` being the stale loop variable left over from the
first loop, not the blob under the key — and replace the key `k` by
`k ++ "*"` mapped to the URI string. -/
def rbsLoop2 (supply : Nat → String) : List String → Option JVal →
    List (String × JVal) → Nat → List (String × JVal) × List (String × JVal) × Nat
  | [], _, kvs, ctr => ([], kvs, ctr)
  | k :: ks, lastV, kvs, ctr =>
    let u := supply ctr
    let kvs' := setKey (eraseKey kvs k) (k ++ "*") (JVal.str u)
    let (ub, kvs'', ctr') := rbsLoop2 supply ks lastV kvs' (ctr + 1)
    ((u, lastV.getD JVal.null) :: ub, kvs'', ctr')

mutual

/-- `_recursiveBinarySearch` (ClientServer.py 160-180) on one value.
`supply`/`ctr` model `uuid.uuid4().hex` as a deterministic stream of
32-character URIs.  Only dicts are walked (the callers guard with
`isinstance(v, dict)`; the top-level argument of `sendMessage` is the
message dict). -/
def rbsVal (supply : Nat → String) : JVal → Nat →
    List (String × JVal) × JVal × Nat
  | .obj kvs, ctr =>
    let (ub, kvs1, keys, lastV, ctr1) := rbsLoop1 supply kvs ctr
    let (ub2, kvs2, ctr2) := rbsLoop2 supply keys lastV kvs1 ctr1
    (ub ++ ub2, .obj kvs2, ctr2)
  | v, ctr => ([], v, ctr)

/-- The first loop of `_recursiveBinarySearch` (ClientServer.py
166-172): recurse into dict values, collect keys of StringIO values,
and remember the last iterated value (the `v` the second loop will
erroneously use for every blob). -/
def rbsLoop1 (supply : Nat → String) : List (String × JVal) → Nat →
    List (String × JVal) × List (String × JVal) × List String × Option JVal × Nat
  | [], ctr => ([], [], [], Option.none, ctr)
  | (k, v) :: rest, ctr =>
    match v with
    | .obj kvs' =>
      let (ub, v', ctr') := rbsVal supply (JVal.obj kvs') ctr
      let (ubR, kvsR, keysR, lastR, ctrR) := rbsLoop1 supply rest ctr'
      (ub ++ ubR, (k, v') :: kvsR, keysR,
        (match lastR with | some x => some x | Option.none => some v'), ctrR)
    | .blob b =>
      let (ubR, kvsR, keysR, lastR, ctrR) := rbsLoop1 supply rest ctr
      (ubR, (k, .blob b) :: kvsR, k :: keysR,
        (match lastR with | some x => some x | Option.none => some (.blob b)), ctrR)
    | w =>
      let (ubR, kvsR, keysR, lastR, ctrR) := rbsLoop1 supply rest ctr
      (ubR, (k, w) :: kvsR, keysR,
        (match lastR with | some x => some x | Option.none => some w), ctrR)

end

/-- `WebSocketCloudEngineProtocol.sendMessage` (ClientServer.py
182-192): rewrite the message, send the text frame, then one binary
frame `uri ++ blob.getvalue()` per recorded pair in order.
`.getvalue()` on a recorded value that is not a StringIO raises
`AttributeError` (reachable through the stale-variable slip in
`_recursiveBinarySearch`). -/
def sendMessage (supply : Nat → String) (ctr : Nat) (msg : JVal) :
    JVal × Except PyErr (List String) × Nat :=
  let (ub, msgURI, ctr') := rbsVal supply msg ctr
  (msgURI, ub.mapM (fun p =>
    match p.2 with
    | .blob b => Except.ok (p.1 ++ b)
    | _ => Except.error PyErr.attributeError), ctr')

/-- Errors raised inside `RobotClient` / `Robot` (rce/robot.py). -/
inductive GErr where
  /-- A failed Python `assert`. -/
  | assertionError
deriving DecidableEq

/-- State of one `Robot` session (rce/robot.py 65-94): the attached
WebSocket connection, if any, and the interface registry
`self._interfaces` in insertion order (tag to an opaque interface id). -/
structure Session where
  connection : Option Unit
  interfaces : List (String × Nat)
deriving DecidableEq

/-- State of the process-wide `RobotClient` (rce/robot.py 471-487):
the live set `self._robots`, the armed death timers
`self._deathCandidates` (robot to timer token), and a token counter
standing for `reactor.callLater` handles. -/
structure ClientState where
  robots : List Nat
  deathCandidates : List (Nat × Nat)
  nextTimer : Nat
deriving DecidableEq

/-- `RobotClient.registerRobot` (rce/robot.py 489-497): assert the robot
is in neither set, add it to the live set and arm a fresh
`RECONNECT_TIMEOUT` death timer. -/
def registerRobot (cs : ClientState) (r : Nat) : Except GErr ClientState :=
  if cs.robots.contains r then .error .assertionError
  else if cs.deathCandidates.any (fun p => p.1 = r) then .error .assertionError
  else .ok { robots := cs.robots ++ [r],
             deathCandidates := cs.deathCandidates ++ [(r, cs.nextTimer)],
             nextTimer := cs.nextTimer + 1 }

/-- `RobotClient.unregisterRobot` (rce/robot.py 499-507): assert the
robot is live, remove it, and cancel its death timer if one is armed. -/
def unregisterRobot (cs : ClientState) (r : Nat) : Except GErr ClientState :=
  if cs.robots.contains r then
    .ok { cs with robots := cs.robots.filter (fun x => x ≠ r),
                  deathCandidates := cs.deathCandidates.filter (fun p => p.1 ≠ r) }
  else .error .assertionError

/-- `RobotClient.connectionLost` (rce/robot.py 520-530): assert no death
timer is armed for the robot, then arm a fresh one. -/
def connectionLost (cs : ClientState) (r : Nat) : Except GErr ClientState :=
  if cs.deathCandidates.any (fun p => p.1 = r) then .error .assertionError
  else .ok { cs with deathCandidates := cs.deathCandidates ++ [(r, cs.nextTimer)],
                     nextTimer := cs.nextTimer + 1 }

/-- `RobotClient.connectionEstablished` (rce/robot.py 532-541): assert a
death timer is armed for the robot, then pop and cancel it. -/
def connectionEstablished (cs : ClientState) (r : Nat) : Except GErr ClientState :=
  if cs.deathCandidates.any (fun p => p.1 = r) then
    .ok { cs with deathCandidates := cs.deathCandidates.filter (fun p => p.1 ≠ r) }
  else .error .assertionError

/-- Number of armed death timers for a robot. -/
def timersFor (cs : ClientState) (r : Nat) : Nat :=
  (cs.deathCandidates.filter (fun p => p.1 = r)).length

/-- `Robot.unregisterInterface` (rce/robot.py 435-440): assert the tag
is registered, then delete it. -/
def unregisterInterface (s : Session) (tag : String) : Except GErr Session :=
  if s.interfaces.any (fun p => p.1 = tag) then
    .ok { s with interfaces := s.interfaces.filter (fun p => p.1 ≠ tag) }
  else .error .assertionError

/-- `Robot.registerInterface` (rce/robot.py 428-433): assert the tag is
free, then insert the interface under it. -/
def registerInterface (s : Session) (tag : String) (uid : Nat) : Except GErr Session :=
  if s.interfaces.any (fun p => p.1 = tag) then .error .assertionError
  else .ok { s with interfaces := s.interfaces ++ [(tag, uid)] }

/-- Observable calls a session makes outward. -/
inductive SEffect where
  /-- `self._connection.sendDataMessage(iTag, msgType, msgID, msg)`. -/
  | sendDataMessage (iTag msgType msgID : String) (msg : JVal)
  /-- `interface.receive(clsName, msgID, msg)` on the registered handle. -/
  | receive (uid : Nat) (clsName msgID : String) (msg : JVal)

/-- `Robot.sendToClient` (rce/robot.py 356-384): without an attached
connection the message is silently dropped; otherwise it is handed to
the protocol's outbound path. -/
def sendToClient (s : Session) (iTag msgType msgID : String) (msg : JVal) :
    List SEffect :=
  match s.connection with
  | Option.none => []
  | some _ => [SEffect.sendDataMessage iTag msgType msgID msg]

/-- Errors raised inside `Robot.receivedFromClient`.
`unknownInterface` is the error type named by the spec's taxonomy; it
exists here only so the claim can be stated — no code path produces
it. -/
inductive RErr where
  | keyError (k : String)
  | unknownInterface
  | deadConnection
deriving DecidableEq

/-- `Robot.receivedFromClient` (rce/robot.py 327-354):
`self._interfaces[iTag].receive(clsName, msgID, msg)` — a missing tag
raises the dict's `KeyError` (the `except` clause there only rewraps
`DeadReferenceError`/`PBConnectionLost` into `DeadConnection`). -/
def receivedFromClient (s : Session) (iTag clsName msgID : String) (msg : JVal) :
    Except RErr SEffect :=
  match s.interfaces.find? (fun p => p.1 = iTag) with
  | some p => .ok (SEffect.receive p.2 clsName msgID msg)
  | Option.none => .error (.keyError iTag)

/-- `Robot.remote_destroy` (rce/robot.py 442-457) for the session `r`.
The WebSocket connection object and the interface classes live outside
`src/`; modelled from the spec: dropping the connection invokes
`unregisterConnectionToRobot` (rce/robot.py 394-398: clear the
connection, notify `connectionLost`), and destroying an interface
unregisters its tag from the session.  After the interface loop the
method asserts the registry empty and the connection gone, then calls
`unregisterRobot`. -/
def remoteDestroy (r : Nat) (s : Session) (cs : ClientState) :
    Except GErr (Session × ClientState) :=
  let step1 : Except GErr (Session × ClientState) :=
    match s.connection with
    | some _ =>
      match connectionLost cs r with
      | .ok cs1 => .ok ({ s with connection := Option.none }, cs1)
      | .error e => .error e
    | Option.none => .ok (s, cs)
  match step1 with
  | .error e => .error e
  | .ok (s1, cs1) =>
    match s1.interfaces.foldlM (fun acc (p : String × Nat) => unregisterInterface acc p.1) s1 with
    | .error e => .error e
    | .ok s2 =>
      if s2.interfaces.isEmpty then
        if s2.connection.isNone then
          match unregisterRobot cs1 r with
          | .error e => .error e
          | .ok cs2 => .ok (s2, cs2)
        else .error .assertionError
      else .error .assertionError

/-- Login failure of the credentials checker. -/
inductive LoginErr where
  | unauthorizedLogin
deriving DecidableEq

/-- The credentials object handed to `requestAvatarId`.  Modelled from
the spec: `IRobotCredentials` is not under `src/`; it provides the
identity pair and a key-check primitive (`credentials.checkKey(key)`). -/
structure Creds where
  userID : String
  robotID : String
  checkKey : String → Bool

/-- The gateway's pending table `self._pendingRobots`:
`(userID, robotID)` to `(key, robot)`. -/
abbrev Pending := List ((String × String) × (String × Nat))

/-- `RobotClient.requestAvatarId` with `RobotClient._passwordMatch`
(rce/robot.py 562-587): when the identity pair is pending, the
credentials' key check against the stored key decides between the
avatar id and `UnauthorizedLogin`; an unknown pair fails with
`UnauthorizedLogin` directly. -/
def requestAvatarId (pending : Pending) (c : Creds) :
    Except LoginErr (String × String) :=
  match pending.find? (fun p => p.1 = (c.userID, c.robotID)) with
  | some p => if c.checkKey p.2.1 then .ok (c.userID, c.robotID)
              else .error .unauthorizedLogin
  | Option.none => .error .unauthorizedLogin

/-- A gateway endpoint as the master's `Distributor` sees it
(rce/master/robot.py 106-132): an identity and its advisory `active`
count. -/
structure REndpoint where
  eid : Nat
  active : Nat
deriving DecidableEq

/-- `RobotProcessError` (rce/master/robot.py 41-43), the spec's
`NoFreeProcess`. -/
inductive DErr where
  | noFreeProcess
deriving DecidableEq

/-- One comparison step of Python's `min(xs, key=lambda r: r.active)`:
a strictly smaller key wins, ties keep the earlier element. -/
def minStep (best x : REndpoint) : REndpoint :=
  if x.active < best.active then x else best

/-- Python's `min(xs, key=...)` over the registered set in iteration
order. -/
def minActive (robots : List REndpoint) : Option REndpoint :=
  match robots with
  | [] => Option.none
  | r :: rest => some (rest.foldl minStep r)

/-- `Distributor.getNextLocation` (rce/master/robot.py 67-78):
`min(self._robots, key=lambda r: r.active)`, with the empty set's
`ValueError` rewrapped into `RobotProcessError`. -/
def getNextLocation (robots : List REndpoint) : Except DErr REndpoint :=
  match minActive robots with
  | some r => .ok r
  | Option.none => .error .noFreeProcess

/-- `Distributor.registerRobotProcess` (rce/master/robot.py 59-61):
registrations are asserted unique. -/
def registerRobotProcess (robots : List REndpoint) (r : REndpoint) :
    Except GErr (List REndpoint) :=
  if robots.contains r then .error .assertionError else .ok (robots ++ [r])

/-- `Distributor.unregisterRobotProcess` (rce/master/robot.py 63-65). -/
def unregisterRobotProcess (robots : List REndpoint) (r : REndpoint) :
    Except GErr (List REndpoint) :=
  if robots.contains r then .ok (robots.filter (fun x => x ≠ r))
  else .error .assertionError


/-- Decode the four wire fields of an emitted text frame back into the
shape `_strMsgHandle` receives (the inverse of `json.dumps` followed by
`json.loads` on a well-formed message). -/
def jvalToStrMsg (j : JVal) : Option StrMsg :=
  match jget j "type", jget j "orig", jget j "dest", jget j "data" with
  | .ok (.str t), .ok (.str o), .ok (.str d), .ok dat => some ⟨t, o, d, dat⟩
  | _, _, _, _ => Option.none

/-! Concrete inputs used by the evaluations below. -/

/-- A fixed 32-character URI, standing for one `uuid.uuid4().hex` draw. -/
def uriA : String := "aaaaaaaaaaaaaaaaaaaaaaaaaaaaaaaa"

/-- A constant URI supply for single-blob outbound runs. -/
def rtSupply : Nat → String := fun _ => uriA

/-- Outbound data message carrying one binary blob `"DATA"` under
`data.msg.img`. -/
def rtBlobMsg : JVal := .obj [("type", .str MESSAGE), ("orig", .str "r1"), ("dest", .str "i1"),
  ("data", .obj [("msg", .obj [("img", .blob "DATA")])])]

/-- The text frame `sendMessage` emits for `rtBlobMsg`. -/
def rtTextJ : JVal := (rbsVal rtSupply rtBlobMsg 0).2.1

/-- `rtTextJ` as the decoded inbound message. -/
def rtTextMsg : StrMsg := ⟨MESSAGE, "r1", "i1", .obj [("msg", .obj [("img*", .str uriA)])]⟩

/-- Inbound handling of the emitted text frame on a fresh session. -/
def rtStep1 : HRes := strMsgHandle ⟨some (), []⟩ 0 rtTextMsg

/-- Inbound handling of the emitted binary frame afterwards. -/
def rtStep2 : CState × List Effect × Option PyErr :=
  binaryMsgHandle rtStep1.state (uriA ++ "DATA")

/-- The original `data` subobject of `rtBlobMsg`. -/
def rtOrigData : JVal := .obj [("msg", .obj [("img", .blob "DATA")])]

/-- The `data` subobject the inbound path actually delivers. -/
def rtDeliveredData : JVal := .obj [("msg", .obj [("img", JVal.null)])]

/-- A `CreateContainer` message instantiating the session. -/
def c4CreateMsg : StrMsg := ⟨CREATE_CONTAINER, "r1", "", .obj [("containerTag", .str "c1")]⟩

/-- A `DataMessage` whose only placeholder key sits inside an object
nested in an array, invisible to `_recursiveURISearch`. -/
def c4DataMsg : StrMsg := ⟨MESSAGE, "r1", "i1",
  .obj [("msg", .obj [("a", .arr [.obj [("img*", .str uriA)]])])]⟩

/-- The two-frame inbound run of the C4 counterexample. -/
def c4Run : CState × List Out := runFrames CState.init 0 [.text c4CreateMsg, .text c4DataMsg]

/-- A `ConnectInterfaces` message as §4.1 of the spec describes it. -/
def c10ConnectMsg : StrMsg := ⟨CONNECT_INTERFACES, "r1", "",
  .obj [("connect", .arr [.arr [.str "tagA", .str "tagB"]]), ("disconnect", .arr [])]⟩

/-- A live session with one registered interface. -/
def c7s0 : Session := ⟨some (), [("t1", 11)]⟩

/-- Gateway state in which robot `7` is live with no armed timer. -/
def c7cs0 : ClientState := ⟨[7], [], 0⟩

/-- A parked entry: `rtTextMsg` with its one missing slot, arrival time `0`. -/
def parkedEntry : Entry := (rtTextMsg, [(.str uriA, ["msg"], "img*")], 0)

/-- A pending table with one robot. -/
def c5Pending : Pending := [(("u1", "r1"), ("secret", 3))]

/-- Credentials matching `c5Pending`. -/
def c5Creds : Creds := ⟨"u1", "r1", fun k => k = "secret"⟩

/-! Theorems. -/

mutual

theorem JVal.beq_refl : ∀ v : JVal, JVal.beq v v = true
  | .str s => by simp [JVal.beq]
  | .num n => by simp [JVal.beq]
  | .bool b => by simp [JVal.beq]
  | .null => by simp [JVal.beq]
  | .obj kvs => by simp [JVal.beq, JVal.beqObj_refl kvs]
  | .arr xs => by simp [JVal.beq, JVal.beqArr_refl xs]
  | .blob s => by simp [JVal.beq]

theorem JVal.beqObj_refl : ∀ kvs : List (String × JVal), JVal.beqObj kvs kvs = true
  | [] => by simp [JVal.beqObj]
  | (k, v) :: r => by simp [JVal.beqObj, JVal.beq_refl v, JVal.beqObj_refl r]

theorem JVal.beqArr_refl : ∀ xs : List JVal, JVal.beqArr xs xs = true
  | [] => by simp [JVal.beqArr]
  | x :: r => by simp [JVal.beqArr, JVal.beq_refl x, JVal.beqArr_refl r]

end

/-- Two JSON values whose equality test is `false` are distinct. -/
theorem JVal.ne_of_beq_false {a b : JVal} (h : JVal.beq a b = false) : a ≠ b := by
  intro heq
  rw [heq, JVal.beq_refl] at h
  cases h


/-- C1: the claimed round-trip of the binary embedding fails on the
code.  Walking `rtBlobMsg` (one blob `"DATA"` under `data.msg.img`)
through the outbound path emits the text frame `rtTextJ` (key renamed
to `img*`, value the fresh URI) and one binary frame `uriA ++ "DATA"`;
feeding the text frame and then the binary frame through the inbound
path parks the message, matches the URI and dispatches — but the
delivered message holds `None` where the original blob stood, because
`_binaryMsgHandle` installs the return value of
`StringIO().write(msg[33:])` rather than the payload bytes, so the blob
contents are not reconstructed byte-for-byte. -/
theorem c1_roundTrip_fails :
    (rbsVal rtSupply rtBlobMsg 0).2.1 = rtTextJ
    ∧ rtTextJ = .obj [("type", .str MESSAGE), ("orig", .str "r1"), ("dest", .str "i1"),
        ("data", .obj [("msg", .obj [("img*", .str uriA)])])]
    ∧ (sendMessage rtSupply 0 rtBlobMsg).2.1 = .ok [uriA ++ "DATA"]
    ∧ jvalToStrMsg rtTextJ = some rtTextMsg
    ∧ rtStep1.err = Option.none
    ∧ rtStep1.effects = []
    ∧ rtStep1.state.incompleteMsgs = [(rtTextMsg, [(.str uriA, ["msg"], "img*")], 0)]
    ∧ rtStep2.2.1 = [Effect.sendROS "i1" rtDeliveredData]
    ∧ rtStep2.2.2 = Option.none
    ∧ rtStep2.1.incompleteMsgs = []
    ∧ rtDeliveredData ≠ rtOrigData :=
  ⟨rfl, rfl, rfl, rfl, rfl, rfl, rfl, rfl, rfl, rfl, JVal.ne_of_beq_false rfl⟩

/-- C2: inbound binary frame handling, evaluated at a parked message
`{"msg": {"img*": uriA}}` and the binary frame `uriA ++ "DATA"`.  The
URI is matched on the first 32 bytes, the placeholder key `img*` is
removed, a value is installed under `img`, the missing list empties and
the completed message is dispatched to the destination — but the
installed value is `None`, not the payload bytes at positions 32
onward, because the code slices `msg[33:]` and installs the return
value of `StringIO().write(...)`. -/
theorem c2_binaryFrame_eval :
    (binaryMsgHandle ⟨some (), [parkedEntry]⟩ (uriA ++ "DATA")).2.1
      = [Effect.sendROS "i1" rtDeliveredData]
    ∧ (binaryMsgHandle ⟨some (), [parkedEntry]⟩ (uriA ++ "DATA")).2.2 = Option.none
    ∧ (binaryMsgHandle ⟨some (), [parkedEntry]⟩ (uriA ++ "DATA")).1.incompleteMsgs = []
    ∧ (uriA ++ "DATA").data.take 32 = uriA.data
    ∧ (uriA ++ "DATA").data.drop 32 = "DATA".data
    ∧ rtDeliveredData ≠ .obj [("msg", .obj [("img", .blob "DATA")])] :=
  ⟨rfl, rfl, rfl, rfl, rfl, JVal.ne_of_beq_false rfl⟩

/-- C3: the cleanup sweep does not implement the claimed eviction.
When every parked entry is at least as old as the limit (age at or past
`MSG_QUEUE_TIMEOUT`), the scan finds no entry newer than the limit,
the loop falls through, and the sweep retains all of them instead of
dropping them all. -/
theorem c3_cleanUp_retains_all_stale (limit : Nat) (msgs : List Entry)
    (h : ∀ e ∈ msgs, e.2.2 ≤ limit) : cleanUp limit msgs = msgs := by
  have hscan : ∀ (l : List Entry) (i : Nat), (∀ e ∈ l, e.2.2 ≤ limit) →
      cleanUpScan limit l i = Option.none := by
    intro l
    induction l with
    | nil => intro i _; rfl
    | cons e rest ih =>
      intro i hl
      have he : e.2.2 ≤ limit := hl e (List.mem_cons_self e rest)
      rw [cleanUpScan, if_neg (by omega)]
      exact ih (i + 1) (fun x hx => hl x (List.mem_cons_of_mem e hx))
  unfold cleanUp
  rw [hscan msgs 0 h]

/-- C3 witness: a single parked entry of age far past the limit is
retained by the sweep. -/
theorem c3_cleanUp_retains_all_stale_witness :
    cleanUp 100 [parkedEntry] = [parkedEntry] :=
  c3_cleanUp_retains_all_stale 100 [parkedEntry]
    (by intro e he; rw [List.mem_singleton] at he; subst he; decide)

/-- A star-marked key whose collection test returned the empty list does
not end in the marker. -/
theorem endsStar_false_of_ite (k : String) (w : JVal) (p : JPath)
    (h : (if endsStar k then [(w, p, k)] else []) = ([] : List (JVal × JPath × String))) :
    endsStar k = false := by
  by_cases hk : endsStar k = true
  · rw [if_pos hk] at h; cases h
  · simpa using hk

mutual

theorem uriSearchVal_nil : ∀ (v : JVal) (p : JPath) (k : String),
    uriSearchVal v p k = [] → starLeafVal v k = false
  | .obj kvs, p, k, h => uriSearchList_nil kvs (p ++ [k]) h
  | .str s, p, k, h => endsStar_false_of_ite k (.str s) p h
  | .num n, p, k, h => endsStar_false_of_ite k (.num n) p h
  | .bool b, p, k, h => endsStar_false_of_ite k (.bool b) p h
  | .null, p, k, h => endsStar_false_of_ite k .null p h
  | .arr xs, p, k, h => endsStar_false_of_ite k (.arr xs) p h
  | .blob b, p, k, h => endsStar_false_of_ite k (.blob b) p h

theorem uriSearchList_nil : ∀ (kvs : List (String × JVal)) (p : JPath),
    uriSearchList kvs p = [] → starLeafList kvs = false
  | [], _, _ => rfl
  | (k, v) :: rest, p, h => by
    rw [uriSearchList, List.append_eq_nil] at h
    rw [starLeafList, Bool.or_eq_false_iff]
    exact ⟨uriSearchVal_nil v p k h.1, uriSearchList_nil rest p h.2⟩

end

/-- C4 counterexample: on the frame sequence `CreateContainer` then a
`DataMessage` whose only placeholder key `img*` sits inside an object
nested in an array, the scan finds nothing, the message is dispatched
downstream immediately, and the dispatched message still contains a
placeholder key — refuting the claimed no-placeholder invariant of
inbound dispatch. -/
theorem c4_dispatched_with_placeholder :
    c4Run.2 = [Out.eff (.createContainer (.str "c1")),
               Out.eff (.sendROS "i1" c4DataMsg.data)]
    ∧ hasPlaceholderKey c4DataMsg.data = true := ⟨rfl, rfl⟩

/-- C4 amended: when a `DataMessage` is dispatched immediately (the
placeholder scan of its `msg` object found nothing), no key with a
non-object value reachable from that object through nested objects only
ends in `*`; placeholders inside arrays, placeholder keys with object
values, keys outside the `msg` subtree, and reassembled messages are
not covered. -/
theorem c4_immediate_dispatch_spec (s : CState) (now : Nat)
    (m : StrMsg) (kvs : List (String × JVal))
    (hty : m.type = MESSAGE)
    (hmsg : jget m.data "msg" = .ok (.obj kvs))
    (hdisp : (strMsgHandle s now m).effects = [Effect.sendROS m.dest m.data]) :
    starLeafList kvs = false := by
  by_cases huri : (uriSearchList kvs ["msg"]).isEmpty
  · exact uriSearchList_nil kvs ["msg"] (List.isEmpty_iff.mp huri)
  · exfalso
    unfold strMsgHandle at hdisp
    rw [hty] at hdisp
    rw [if_neg (by decide), if_neg (by decide), if_neg (by decide), if_neg (by decide),
        if_pos rfl, hmsg] at hdisp
    simp only [if_neg huri] at hdisp
    cases hdisp

/-- C4 amended witness: a `DataMessage` with an empty `msg` object is
dispatched immediately and its scan region indeed holds no
placeholder. -/
theorem c4_immediate_dispatch_spec_witness :
    starLeafList ([] : List (String × JVal)) = false :=
  c4_immediate_dispatch_spec ⟨some (), []⟩ 0
    ⟨MESSAGE, "r1", "i1", .obj [("msg", .obj [])]⟩ [] rfl rfl rfl

/-- C5: authentication succeeds exactly when the identity pair is
pending and the key check against the stored key passes; in every other
case — unknown pair or failing key — the result is the same
`UnauthorizedLogin` value, so the failure does not reveal which half of
the credential was wrong, and success returns the `(userID, robotID)`
avatar id. -/
theorem c5_requestAvatarId_spec (pending : Pending) (c : Creds) :
    (requestAvatarId pending c = .ok (c.userID, c.robotID)
      ↔ ∃ kr, pending.find? (fun p => p.1 = (c.userID, c.robotID))
            = some ((c.userID, c.robotID), kr) ∧ c.checkKey kr.1 = true)
    ∧ (requestAvatarId pending c = .ok (c.userID, c.robotID)
       ∨ requestAvatarId pending c = .error .unauthorizedLogin) := by
  unfold requestAvatarId
  cases hfind : pending.find? (fun p => p.1 = (c.userID, c.robotID)) with
  | none =>
    refine ⟨⟨(fun h => by cases h), ?_⟩, Or.inr rfl⟩
    rintro ⟨kr, hk, _⟩
    cases hk
  | some p =>
    have hp1 : p.1 = (c.userID, c.robotID) := by
      have h2 := List.find?_some hfind
      exact of_decide_eq_true h2
    have hpe : p = ((c.userID, c.robotID), p.2) := by rw [← hp1]
    cases hkey : c.checkKey p.2.1 with
    | true =>
      refine ⟨⟨(fun _ => ⟨p.2, by rw [← hpe], hkey⟩), (fun _ => by simp [hkey])⟩,
        Or.inl (by simp [hkey])⟩
    | false =>
      have hneg : ¬(c.checkKey p.2.1 = true) := by rw [hkey]; exact Bool.false_ne_true
      refine ⟨⟨(fun h => by simp [hkey] at h), ?_⟩, Or.inr (by simp [hkey])⟩
      rintro ⟨kr, hk, hck⟩
      rw [hpe] at hk
      obtain rfl : p.2 = kr := by
        have h3 := Option.some.inj hk
        exact congrArg Prod.snd h3
      exact absurd hck hneg

/-- C5 witness: the matching credentials for the single pending robot
authenticate to its avatar id. -/
theorem c5_requestAvatarId_spec_witness :
    requestAvatarId c5Pending c5Creds = .ok ("u1", "r1")
    ∨ requestAvatarId c5Pending c5Creds = .error .unauthorizedLogin :=
  (c5_requestAvatarId_spec c5Pending c5Creds).2

/-- C8 counterexample: with an empty registry, `receivedFromClient`
fails with the dict lookup's `KeyError`, which is not the
`UnknownInterface` error the claim names. -/
theorem c8_keyError_not_unknownInterface :
    receivedFromClient ⟨some (), []⟩ "tag" "cls" "mid" (.str "x")
      = .error (.keyError "tag")
    ∧ (Except.error (RErr.keyError "tag") : Except RErr SEffect)
        ≠ .error RErr.unknownInterface := by
  refine ⟨rfl, fun h => ?_⟩
  injection h with h2
  cases h2

/-- C8 amended: for a tag absent from the registry,
`receivedFromClient` fails with `KeyError` (the raw dict lookup error),
producing no interface call; for a present tag it delegates the message
to that interface's `receive`.  The registry itself is read, not
written, in both cases. -/
theorem c8_receivedFromClient_spec (s : Session) (iTag clsName msgID : String) (msg : JVal) :
    (s.interfaces.find? (fun p => p.1 = iTag) = Option.none →
      receivedFromClient s iTag clsName msgID msg = .error (.keyError iTag))
    ∧ (∀ p, s.interfaces.find? (fun p => p.1 = iTag) = some p →
      receivedFromClient s iTag clsName msgID msg
        = .ok (.receive p.2 clsName msgID msg)) := by
  constructor
  · intro h; unfold receivedFromClient; rw [h]
  · intro p h; unfold receivedFromClient; rw [h]

/-- C8 witness: a registered tag delegates to its interface handle. -/
theorem c8_receivedFromClient_spec_witness :
    receivedFromClient ⟨some (), [("t", 4)]⟩ "t" "c" "m" JVal.null
      = .ok (.receive 4 "c" "m" JVal.null) :=
  (c8_receivedFromClient_spec ⟨some (), [("t", 4)]⟩ "t" "c" "m" JVal.null).2 ("t", 4) rfl

/-- No armed timer for the robot exactly when the candidate scan
fails. -/
theorem timersFor_zero_iff (cs : ClientState) (r : Nat) :
    timersFor cs r = 0 ↔ cs.deathCandidates.any (fun p => p.1 = r) = false := by
  unfold timersFor
  rw [List.length_eq_zero, List.filter_eq_nil_iff, List.any_eq_false]

/-- A positive timer count means the candidate scan succeeds. -/
theorem timersFor_pos_any (cs : ClientState) (r : Nat) (h : 0 < timersFor cs r) :
    cs.deathCandidates.any (fun p => p.1 = r) = true := by
  cases hb : cs.deathCandidates.any (fun p => p.1 = r) with
  | true => rfl
  | false =>
    have h0 := (timersFor_zero_iff cs r).mpr hb
    omega

/-- C6 counterexample: with no death timer armed,
`connectionEstablished` fails its assertion instead of completing as a
no-op; with a timer already armed, `connectionLost` fails its assertion
instead of cancelling the previous timer first. -/
theorem c6_asserts_fire :
    connectionEstablished ⟨[5], [], 0⟩ 5 = .error .assertionError
    ∧ connectionLost ⟨[5], [(5, 0)], 1⟩ 5 = .error .assertionError := ⟨rfl, rfl⟩

/-- C6 amended: timer (re)arming is guarded by assertions rather than
idempotent: `connectionEstablished` with no timer armed raises
`AssertionError` (state unchanged) rather than being a no-op, and
`connectionLost` with a timer already armed raises `AssertionError`
rather than cancelling and rearming; in the assert-passing states
`connectionLost` arms exactly one timer and `connectionEstablished`
cancels the unique armed one. -/
theorem c6_timer_spec (cs : ClientState) (r : Nat) :
    (timersFor cs r = 0 → connectionEstablished cs r = .error .assertionError)
    ∧ (timersFor cs r = 0 →
        connectionLost cs r
          = .ok { cs with deathCandidates := cs.deathCandidates ++ [(r, cs.nextTimer)],
                          nextTimer := cs.nextTimer + 1 }
        ∧ timersFor { cs with
            deathCandidates := cs.deathCandidates ++ [(r, cs.nextTimer)],
            nextTimer := cs.nextTimer + 1 } r = 1)
    ∧ (0 < timersFor cs r → connectionLost cs r = .error .assertionError)
    ∧ (timersFor cs r = 1 →
        connectionEstablished cs r
          = .ok { cs with deathCandidates := cs.deathCandidates.filter (fun p => p.1 ≠ r) }
        ∧ timersFor { cs with
            deathCandidates := cs.deathCandidates.filter (fun p => p.1 ≠ r) } r = 0) := by
  refine ⟨?_, ?_, ?_, ?_⟩
  · intro h
    simp [connectionEstablished, (timersFor_zero_iff cs r).mp h]
  · intro h
    have hany := (timersFor_zero_iff cs r).mp h
    refine ⟨by simp [connectionLost, hany], ?_⟩
    unfold timersFor at h ⊢
    simp [List.filter_append, h]
  · intro h
    simp [connectionLost, timersFor_pos_any cs r h]
  · intro h
    have hany := timersFor_pos_any cs r (by omega)
    refine ⟨by simp [connectionEstablished, hany], ?_⟩
    unfold timersFor
    simp [List.filter_filter]

/-- C6 witness: on a state with no timer for robot 1, the lost/
established pair behaves as the amended statement says. -/
theorem c6_timer_spec_witness :
    connectionEstablished ⟨[], [], 0⟩ 1 = .error .assertionError
    ∧ connectionLost ⟨[], [], 0⟩ 1 = .ok ⟨[], [(1, 0)], 1⟩ :=
  ⟨(c6_timer_spec ⟨[], [], 0⟩ 1).1 rfl, ((c6_timer_spec ⟨[], [], 0⟩ 1).2.1 rfl).1⟩

/-- The running minimum stays in the candidate pool. -/
theorem foldl_minStep_mem (l : List REndpoint) (r : REndpoint) :
    l.foldl minStep r = r ∨ l.foldl minStep r ∈ l := by
  induction l generalizing r with
  | nil => exact Or.inl rfl
  | cons x xs ih =>
    rw [List.foldl_cons]
    rcases ih (minStep r x) with h | h
    · rw [h]
      unfold minStep
      split
      · exact Or.inr (List.mem_cons_self x xs)
      · exact Or.inl rfl
    · exact Or.inr (List.mem_cons_of_mem x h)

/-- The running minimum is a lower bound for the seed and the pool. -/
theorem foldl_minStep_le (l : List REndpoint) (r : REndpoint) :
    (l.foldl minStep r).active ≤ r.active
    ∧ ∀ x ∈ l, (l.foldl minStep r).active ≤ x.active := by
  induction l generalizing r with
  | nil => exact ⟨Nat.le_refl _, fun x hx => absurd hx (List.not_mem_nil x)⟩
  | cons y ys ih =>
    rw [List.foldl_cons]
    obtain ⟨h1, h2⟩ := ih (minStep r y)
    have hr : (minStep r y).active ≤ r.active := by unfold minStep; split <;> omega
    have hy : (minStep r y).active ≤ y.active := by unfold minStep; split <;> omega
    refine ⟨Nat.le_trans h1 hr, ?_⟩
    intro x hx
    rcases List.mem_cons.mp hx with rfl | hx2
    · exact Nat.le_trans h1 hy
    · exact h2 x hx2

/-- C9: on a non-empty registered set `getNextLocation` returns an
endpoint of the set whose `active` count is minimal (the deterministic
first minimum of the iteration), and on the empty set it fails with the
no-free-process error.  `getNextLocation` is a pure reading of the set;
only `registerRobotProcess` and `unregisterRobotProcess` produce new
sets. -/
theorem c9_getNextLocation_spec (robots : List REndpoint) :
    (robots = [] → getNextLocation robots = .error .noFreeProcess)
    ∧ (robots ≠ [] → ∃ r, getNextLocation robots = .ok r ∧ r ∈ robots
        ∧ ∀ x ∈ robots, r.active ≤ x.active) := by
  constructor
  · intro h; subst h; rfl
  · intro h
    match robots, h with
    | r0 :: rest, _ =>
      refine ⟨rest.foldl minStep r0, rfl, ?_, ?_⟩
      · rcases foldl_minStep_mem rest r0 with h2 | h2
        · rw [h2]; exact List.mem_cons_self _ _
        · exact List.mem_cons_of_mem _ h2
      · intro x hx
        obtain ⟨h1, h2⟩ := foldl_minStep_le rest r0
        rcases List.mem_cons.mp hx with rfl | hx2
        · exact h1
        · exact h2 x hx2

/-- C9 witness: of two endpoints with active counts 5 and 3, the second
is chosen. -/
theorem c9_getNextLocation_spec_witness :
    ∃ r, getNextLocation [⟨1, 5⟩, ⟨2, 3⟩] = .ok r ∧ r ∈ [(⟨1, 5⟩ : REndpoint), ⟨2, 3⟩]
      ∧ ∀ x ∈ [(⟨1, 5⟩ : REndpoint), ⟨2, 3⟩], r.active ≤ x.active :=
  (c9_getNextLocation_spec [⟨1, 5⟩, ⟨2, 3⟩]).2 (by decide)


/-- Membership probe: a value filtered out by its own inequality test is
no longer contained. -/
theorem contains_filter_ne_self (l : List Nat) (r : Nat) :
    (l.filter (fun x => x ≠ r)).contains r = false := by
  cases hc : (l.filter (fun x => x ≠ r)).contains r with
  | false => rfl
  | true =>
    exfalso
    simp at hc

/-- Destroying each interface in insertion order empties the registry
when the registered tags are distinct. -/
theorem foldlM_unregister : ∀ (l : List (String × Nat)) (s : Session),
    s.interfaces = l → (l.map Prod.fst).Nodup →
    l.foldlM (fun acc (p : String × Nat) => unregisterInterface acc p.1) s
      = .ok ⟨s.connection, []⟩
  | [], s, hint, _ => by
    cases s with
    | mk conn ifs => simp only at hint; subst hint; rfl
  | (k, i) :: rest, s, hint, hnd => by
    have hk_not : k ∉ rest.map Prod.fst := (List.nodup_cons.mp (by simpa using hnd)).1
    have hnd2 : (rest.map Prod.fst).Nodup := (List.nodup_cons.mp (by simpa using hnd)).2
    have hhead : unregisterInterface s k = .ok ⟨s.connection, rest⟩ := by
      unfold unregisterInterface
      rw [hint]
      rw [if_pos (by simp)]
      have hfil : ((k, i) :: rest).filter (fun p => p.1 ≠ k) = rest := by
        rw [List.filter_cons_of_neg (by simp)]
        rw [List.filter_eq_self]
        intro p hp
        simp only [ne_eq, decide_eq_true_eq]
        intro heq
        exact hk_not (heq ▸ List.mem_map_of_mem Prod.fst hp)
      rw [hfil]
    rw [List.foldlM_cons, hhead]
    exact foldlM_unregister rest ⟨s.connection, rest⟩ rfl hnd2

/-- C7 counterexample: destroying a live session with one interface
succeeds and tears everything down, but the claimed second `destroy()`
does not complete without error — it fails `unregisterRobot`'s
assertion because the session is no longer registered. -/
theorem c7_second_destroy_fails :
    remoteDestroy 7 c7s0 c7cs0 = .ok (⟨Option.none, []⟩, ⟨[], [], 1⟩)
    ∧ (remoteDestroy 7 c7s0 c7cs0).bind (fun p => remoteDestroy 7 p.1 p.2)
        = .error .assertionError := ⟨rfl, rfl⟩

/-- C7 amended: one `destroy()` on a registered session with no armed
timer and distinct interface tags empties the registry, drops the
WebSocket, detaches the session from the gateway (no membership, no
timer), and leaves `sendToClient` producing no output; a second
`destroy()` on the resulting state raises `AssertionError` instead of
completing — the teardown is not idempotent. -/
theorem c7_destroy_spec (r : Nat) (s : Session) (cs : ClientState)
    (hr : cs.robots.contains r = true)
    (ht : timersFor cs r = 0)
    (hnd : (s.interfaces.map Prod.fst).Nodup) :
    ∃ s2 cs2, remoteDestroy r s cs = .ok (s2, cs2)
      ∧ s2.interfaces = [] ∧ s2.connection = Option.none
      ∧ cs2.robots.contains r = false
      ∧ timersFor cs2 r = 0
      ∧ (∀ iTag mt mid msg, sendToClient s2 iTag mt mid msg = [])
      ∧ remoteDestroy r s2 cs2 = .error .assertionError := by
  have hany := (timersFor_zero_iff cs r).mp ht
  obtain ⟨conn, ifs⟩ := s
  have hsecond : ∀ cs2 : ClientState, cs2.robots.contains r = false →
      remoteDestroy r ⟨Option.none, []⟩ cs2 = .error .assertionError := by
    intro cs2 hc
    show (match unregisterRobot cs2 r with
      | .error e => (.error e : Except GErr (Session × ClientState))
      | .ok cs3 => .ok (⟨Option.none, []⟩, cs3)) = .error .assertionError
    unfold unregisterRobot
    rw [hc]
    rfl
  cases conn with
  | some u =>
    have hlost : connectionLost cs r
        = .ok ⟨cs.robots, cs.deathCandidates ++ [(r, cs.nextTimer)], cs.nextTimer + 1⟩ := by
      simp [connectionLost, hany]
    have hfold := foldlM_unregister ifs ⟨Option.none, ifs⟩ rfl (by simpa using hnd)
    have hunreg : unregisterRobot
          ⟨cs.robots, cs.deathCandidates ++ [(r, cs.nextTimer)], cs.nextTimer + 1⟩ r
        = .ok ⟨cs.robots.filter (fun x => x ≠ r),
               (cs.deathCandidates ++ [(r, cs.nextTimer)]).filter (fun p => p.1 ≠ r),
               cs.nextTimer + 1⟩ := by
      unfold unregisterRobot
      rw [if_pos hr]
    have hcont := contains_filter_ne_self cs.robots r
    refine ⟨⟨Option.none, []⟩,
      ⟨cs.robots.filter (fun x => x ≠ r),
       (cs.deathCandidates ++ [(r, cs.nextTimer)]).filter (fun p => p.1 ≠ r),
       cs.nextTimer + 1⟩,
      ?_, rfl, rfl, hcont, ?_, (fun _ _ _ _ => rfl), hsecond _ hcont⟩
    · unfold remoteDestroy
      simp only [hlost, hfold, hunreg]
      rfl
    · simp [timersFor, List.filter_filter]
  | none =>
    have hfold := foldlM_unregister ifs ⟨Option.none, ifs⟩ rfl (by simpa using hnd)
    have hunreg : unregisterRobot cs r
        = .ok ⟨cs.robots.filter (fun x => x ≠ r),
               cs.deathCandidates.filter (fun p => p.1 ≠ r), cs.nextTimer⟩ := by
      unfold unregisterRobot
      rw [if_pos hr]
    have hcont := contains_filter_ne_self cs.robots r
    refine ⟨⟨Option.none, []⟩,
      ⟨cs.robots.filter (fun x => x ≠ r),
       cs.deathCandidates.filter (fun p => p.1 ≠ r), cs.nextTimer⟩,
      ?_, rfl, rfl, hcont, ?_, (fun _ _ _ _ => rfl), hsecond _ hcont⟩
    · unfold remoteDestroy
      simp only [hfold, hunreg]
      rfl
    · simp [timersFor, List.filter_filter]

/-- C7 witness: the amended statement applied to the concrete live
session `c7s0` on gateway state `c7cs0`. -/
theorem c7_destroy_spec_witness :
    ∃ s2 cs2, remoteDestroy 7 c7s0 c7cs0 = .ok (s2, cs2)
      ∧ s2.interfaces = [] ∧ s2.connection = Option.none
      ∧ cs2.robots.contains 7 = false
      ∧ timersFor cs2 7 = 0
      ∧ (∀ iTag mt mid msg, sendToClient s2 iTag mt mid msg = [])
      ∧ remoteDestroy 7 s2 cs2 = .error .assertionError :=
  c7_destroy_spec 7 c7s0 c7cs0 rfl rfl (by decide)


/-- A successful lookup means the key scan succeeds. -/
theorem any_of_jfind : ∀ (kvs : List (String × JVal)) (f : String) (v : JVal),
    jfind kvs f = some v → kvs.any (fun p => p.1 = f) = true
  | [], _, _, h => by cases h
  | (k, w) :: rest, f, v, h => by
    rw [jfind] at h
    rw [List.any_cons]
    by_cases hk : k = f
    · simp [hk]
    · rw [if_neg hk] at h
      simp [any_of_jfind rest f v h]

/-- A successful subscript implies the `in` test passes. -/
theorem jHasKey_of_jget (d : JVal) (f : String) (v : JVal) (h : jget d f = .ok v) :
    jHasKey d f = true := by
  cases d with
  | obj kvs =>
    dsimp only [jget] at h
    cases hfind : jfind kvs f with
    | none => rw [hfind] at h; cases h
    | some w => exact any_of_jfind kvs f w hfind
  | str s => cases h
  | num n => cases h
  | bool b => cases h
  | null => cases h
  | arr xs => cases h
  | blob b => cases h

/-- `onMessage` on a text frame whose handling raised: the robot calls
made so far followed by one error frame. -/
theorem onMessage_text_err (s : CState) (now : Nat) (m : StrMsg) (s' : CState)
    (effs : List Effect) (e : PyErr)
    (hs : strMsgHandle s now m = ⟨s', effs, some e⟩) :
    onMessage s now (.text m) = (s', effs.map Out.eff ++ [Out.errorFrame]) := by
  have h1 : (strMsgHandle s now m).state = s' := by rw [hs]
  have h2 : (strMsgHandle s now m).effects = effs := by rw [hs]
  have h3 : (strMsgHandle s now m).err = some e := by rw [hs]
  show ((strMsgHandle s now m).state, (strMsgHandle s now m).effects.map Out.eff ++
      (match (strMsgHandle s now m).err with
       | some _ => [Out.errorFrame] | Option.none => [])) = _
  rw [h1, h2, h3]

/-- `onMessage` on a text frame whose handling raised nothing: just the
robot calls. -/
theorem onMessage_text_ok (s : CState) (now : Nat) (m : StrMsg) (s' : CState)
    (effs : List Effect)
    (hs : strMsgHandle s now m = ⟨s', effs, Option.none⟩) :
    onMessage s now (.text m) = (s', effs.map Out.eff) := by
  have h1 : (strMsgHandle s now m).state = s' := by rw [hs]
  have h2 : (strMsgHandle s now m).effects = effs := by rw [hs]
  have h3 : (strMsgHandle s now m).err = Option.none := by rw [hs]
  show ((strMsgHandle s now m).state, (strMsgHandle s now m).effects.map Out.eff ++
      (match (strMsgHandle s now m).err with
       | some _ => [Out.errorFrame] | Option.none => [])) = _
  rw [h1, h2, h3]
  rw [List.append_nil]

/-- C10 counterexample: a `ConnectInterfaces` control message — which
the claim lists among the recognized messages that raise on the absent
session — has no branch in `_strMsgHandle` at all: with no session it
raises `InvalidRequest` (the unsupported-type error), not the
absent-session `AttributeError`, and it raises the same
`InvalidRequest` when a session is present. -/
theorem c10_connectInterfaces_not_session_error :
    (strMsgHandle CState.init 0 c10ConnectMsg).err = some .invalidRequest
    ∧ (strMsgHandle ⟨some (), []⟩ 0 c10ConnectMsg).err = some .invalidRequest
    ∧ some PyErr.invalidRequest ≠ some PyErr.attributeError :=
  ⟨rfl, rfl, by decide⟩

/-- C10 amended: on a connection whose session reference is still
`None`, the session is instantiated exactly by a `CreateContainer`
message; `DestroyContainer`, a `ConfigureComponent` with a non-empty
`addNodes` list, a non-empty `ConfigureInterfaceState`, and a
placeholder-free `DataMessage` raise on the absent session and are
reported back as a single text error frame with no robot call; a
`DataMessage` with placeholders is parked in the reassembly buffer
without error; and `ConnectInterfaces` is not recognized — it raises
`InvalidRequest` regardless of whether a session exists. -/
theorem c10_absentSession_spec (s : CState) (now : Nat) (m : StrMsg)
    (h : s.robot = Option.none) :
    ((strMsgHandle s now m).state.robot = some () ↔ m.type = CREATE_CONTAINER)
    ∧ (m.type = DESTROY_CONTAINER → onMessage s now (.text m) = (s, [Out.errorFrame]))
    ∧ (m.type = CHANGE_COMPONENT → ∀ x xs, jget m.data "addNodes" = .ok (.arr (x :: xs)) →
        onMessage s now (.text m) = (s, [Out.errorFrame]))
    ∧ (m.type = INTERFACE_STATE → ∀ kv kvs, m.data = .obj (kv :: kvs) →
        onMessage s now (.text m) = (s, [Out.errorFrame]))
    ∧ (m.type = MESSAGE → ∀ kvs, jget m.data "msg" = .ok (.obj kvs) →
        uriSearchList kvs ["msg"] = [] →
        onMessage s now (.text m) = (s, [Out.errorFrame]))
    ∧ (m.type = MESSAGE → ∀ kvs, jget m.data "msg" = .ok (.obj kvs) →
        uriSearchList kvs ["msg"] ≠ [] →
        onMessage s now (.text m)
          = (⟨Option.none, s.incompleteMsgs ++ [(m, uriSearchList kvs ["msg"], now)]⟩, []))
    ∧ (m.type = CONNECT_INTERFACES →
        (strMsgHandle s now m).err = some .invalidRequest
        ∧ onMessage s now (.text m) = (s, [Out.errorFrame])
        ∧ ∀ s2 : CState, (strMsgHandle s2 now m).err = some .invalidRequest) := by
  obtain ⟨srob, smsgs⟩ := s
  replace h : srob = Option.none := h
  subst h
  refine ⟨?_, ?_, ?_, ?_, ?_, ?_, ?_⟩
  · constructor
    · intro hrob
      by_contra hne
      have hnone : (strMsgHandle ⟨Option.none, smsgs⟩ now m).state.robot = Option.none := by
        unfold strMsgHandle
        rw [if_neg hne]
        dsimp only
        repeat' split
        all_goals rfl
      rw [hnone] at hrob
      cases hrob
    · intro hty
      unfold strMsgHandle
      rw [if_pos hty]
      dsimp only
      cases hj : jget m.data "containerTag" with
      | error e => rfl
      | ok v => rfl
  · intro hty
    refine onMessage_text_err _ now m _ [] .attributeError ?_
    unfold strMsgHandle
    rw [hty, if_neg (by decide), if_pos rfl]
  · intro hty x xs hj
    refine onMessage_text_err _ now m _ [] .attributeError ?_
    unfold strMsgHandle
    rw [hty, if_neg (by decide), if_neg (by decide), if_pos rfl]
    have hsub : processSubset Option.none m.data "addNodes" (fun node => do
        pure (.addNode m.dest (← jget node "nodeTag") (← jget node "pkg")
          (← jget node "exe") (← jget node "namespace")))
        = ([], some .attributeError) := by
      unfold processSubset
      rw [if_pos (jHasKey_of_jget m.data "addNodes" _ hj), hj]
      rfl
    have hcc : changeComponentEffects Option.none m.dest m.data
        = ([], some .attributeError) := by
      unfold changeComponentEffects
      rw [hsub]
      rfl
    dsimp only
    rw [hcc]
  · intro hty kv kvs hdata
    obtain ⟨tag, act⟩ := kv
    refine onMessage_text_err _ now m _ [] .attributeError ?_
    unfold strMsgHandle
    rw [hty, if_neg (by decide), if_neg (by decide), if_neg (by decide), if_pos rfl, hdata]
    rfl
  · intro hty kvs hj huri
    refine onMessage_text_err _ now m _ [] .attributeError ?_
    unfold strMsgHandle
    rw [hty, if_neg (by decide), if_neg (by decide), if_neg (by decide), if_neg (by decide),
        if_pos rfl, hj]
    dsimp only
    rw [huri]
    rfl
  · intro hty kvs hj huri
    have hs : strMsgHandle ⟨Option.none, smsgs⟩ now m
        = ⟨⟨Option.none, smsgs ++ [(m, uriSearchList kvs ["msg"], now)]⟩, [], Option.none⟩ := by
      unfold strMsgHandle
      rw [hty, if_neg (by decide), if_neg (by decide), if_neg (by decide), if_neg (by decide),
          if_pos rfl, hj]
      dsimp only
      rw [if_neg (fun hh => huri (List.isEmpty_iff.mp hh))]
    exact onMessage_text_ok _ now m _ [] hs
  · intro hty
    have hs : ∀ s2 : CState, strMsgHandle s2 now m = ⟨s2, [], some .invalidRequest⟩ := by
      intro s2
      unfold strMsgHandle
      rw [hty, if_neg (by decide), if_neg (by decide), if_neg (by decide), if_neg (by decide),
          if_neg (by decide)]
    refine ⟨by rw [hs], ?_, fun s2 => by rw [hs]⟩
    exact onMessage_text_err _ now m _ [] .invalidRequest (hs _)

/-- C10 witness: a `DestroyContainer` before any `CreateContainer` on a
fresh connection produces exactly one error frame and no robot call. -/
theorem c10_absentSession_spec_witness :
    onMessage CState.init 0
        (.text ⟨DESTROY_CONTAINER, "r1", "", .obj [("containerTag", .str "c1")]⟩)
      = (CState.init, [Out.errorFrame]) :=
  (c10_absentSession_spec CState.init 0
    ⟨DESTROY_CONTAINER, "r1", "", .obj [("containerTag", .str "c1")]⟩ rfl).2.1 rfl

end RCE
